import Mathlib

/-!
Verification of the keyboard-shortcut registry and display-resolution
pipeline of `src/apps/mail/config/shortcuts.ts`.

The external collaborators (the keyboard layout mapper, the key-code
lookup and the ambient platform string) are modelled as explicit fields
of an environment record `Env`, so every function of the source becomes a
pure Lean function of that environment.
-/

namespace Shortcuts

/-- The `type` field of a shortcut record: `'single' | 'combination'`. -/
inductive ShortcutType
  | single
  | combination
deriving DecidableEq, Repr

/-- A shortcut record, mirroring the zod schema `shortcutSchema`:
`keys`, `action`, `type`, `description`, `scope`, optional
`preventDefault` and `ignore`. -/
structure Shortcut where
  keys : List String
  action : String
  type : ShortcutType
  description : String
  scope : String
  preventDefault : Option Bool := none
  ignore : Option Bool := none
deriving DecidableEq, Repr

/-- `EnhancedShortcut extends Shortcut` with optional `mappedKeys` and
`displayKeys`. -/
structure EnhancedShortcut extends Shortcut where
  mappedKeys : Option (List String) := none
  displayKeys : Option (List String) := none
deriving DecidableEq, Repr

/-- The value returned by `keyboardLayoutMapper.getDetectedLayout()` when a
layout was detected: an object with a `layout` string field. -/
structure DetectedLayout where
  layout : String
deriving DecidableEq, Repr

/-- Raw key codes produced by `getKeyCodeFromKey`; their concrete type is
owned by the external `keyboard-utils` module, modelled here as strings. -/
abbrev KeyCode := String

/-- The ambient environment of the module: the platform identifier
(`navigator.platform`), the detected layout
(`keyboardLayoutMapper.getDetectedLayout()`), and the three external
service functions treated as black boxes. -/
structure Env where
  platform : String
  detectedLayout : Option DetectedLayout
  getKeyCodeFromKey : String → KeyCode
  getKeyForCode : KeyCode → String
  mapKeys : List KeyCode → List String

/-- JavaScript `String.prototype.toLowerCase` on the characters involved
here: lower-case every character. -/
def jsToLower (s : String) : String := ⟨s.data.map Char.toLower⟩

/-- JavaScript `String.prototype.toUpperCase` on the characters involved
here: upper-case every character. -/
def jsToUpper (s : String) : String := ⟨s.data.map Char.toUpper⟩

/-- `pat` occurs at the start of `s` (character lists). -/
def listStartsWith : List Char → List Char → Bool
  | _, [] => true
  | [], _ :: _ => false
  | c :: cs, d :: ds => d == c && listStartsWith cs ds

/-- `pat` occurs contiguously somewhere in `s` (character lists). -/
def listIncludes : List Char → List Char → Bool
  | s, pat =>
    listStartsWith s pat ||
      match s with
      | [] => false
      | _ :: cs => listIncludes cs pat

/-- JavaScript `s.includes(pat)`: `pat` occurs as a contiguous substring
of `s`. -/
def strIncludes (s pat : String) : Bool := listIncludes s.data pat.data

/-- The truthiness test `detectedLayout?.layout && detectedLayout.layout
!== 'qwerty'` guarding the layout-aware branch: the layout is present,
its identifier is a non-empty string (JavaScript truthiness of a string),
and it is not `"qwerty"`. -/
def layoutNonDefault (dl : Option DetectedLayout) : Bool :=
  match dl with
  | none => false
  | some d => d.layout != "" && d.layout != "qwerty"

/-- The body of the `map` inside `getDisplayKeysForShortcut`: the
`switch (key.toLowerCase())` with its fixed modifier cases and the
layout-aware / default fallbacks. -/
def displayKeyFor (env : Env) (dl : Option DetectedLayout) (key : String) : String :=
  match jsToLower key with
  | "mod" => if strIncludes env.platform "Mac" then "⌘" else "Ctrl"
  | "meta" => "⌘"
  | "ctrl" => "Ctrl"
  | "control" => "Ctrl"
  | "alt" => if strIncludes env.platform "Mac" then "⌥" else "Alt"
  | "shift" => "⇧"
  | "escape" => "Esc"
  | "backspace" => "⌫"
  | "enter" => "↵"
  | "space" => "Space"
  | _ =>
    if layoutNonDefault dl then
      let keyCode := env.getKeyCodeFromKey key
      let mappedKey := env.getKeyForCode keyCode
      if mappedKey.length = 1 then jsToUpper mappedKey else mappedKey
    else
      if key.length = 1 then jsToUpper key else key

/-- `getDisplayKeysForShortcut`: reads the detected layout once, then maps
every key of the shortcut through the switch above. -/
def getDisplayKeysForShortcut (env : Env) (shortcut : Shortcut) : List String :=
  let detectedLayout := env.detectedLayout
  shortcut.keys.map (displayKeyFor env detectedLayout)

/-- `enhanceShortcutsWithMapping`: spreads each record and adds
`displayKeys` (via `getDisplayKeysForShortcut`) and `mappedKeys` (via
`mapKeys` over the raw codes of the record's keys). -/
def enhanceShortcutsWithMapping (env : Env) (shortcuts : List Shortcut) :
    List EnhancedShortcut :=
  shortcuts.map fun shortcut =>
    { toShortcut := shortcut
      displayKeys := some (getDisplayKeysForShortcut env shortcut)
      mappedKeys := some (env.mapKeys (shortcut.keys.map env.getKeyCodeFromKey)) }

/-- The `threadDisplayShortcuts` group (active entries only; the source's
commented-out records are absent). -/
def threadDisplayShortcuts : List Shortcut :=
  [ { keys := ["r"], action := "reply", type := .single,
      description := "Reply to email", scope := "thread-display" },
    { keys := ["a"], action := "replyAll", type := .single,
      description := "Reply all", scope := "thread-display" },
    { keys := ["f"], action := "forward", type := .single,
      description := "Forward email", scope := "thread-display" },
    { keys := ["meta", "backspace"], action := "delete", type := .single,
      description := "Move to Bin", scope := "thread-display" } ]

/-- The `navigation` group. -/
def navigation : List Shortcut :=
  [ { keys := ["g", "d"], action := "goToDrafts", type := .combination,
      description := "Go to drafts", scope := "navigation" },
    { keys := ["g", "i"], action := "inbox", type := .combination,
      description := "Go to inbox", scope := "navigation" },
    { keys := ["g", "t"], action := "sentMail", type := .combination,
      description := "Go to sent mail", scope := "navigation" },
    { keys := ["g", "s"], action := "goToSettings", type := .combination,
      description := "Go to general settings", scope := "navigation" },
    { keys := ["g", "a"], action := "goToArchive", type := .combination,
      description := "Go to archive", scope := "navigation" },
    { keys := ["g", "b"], action := "goToBin", type := .combination,
      description := "Go to bin", scope := "navigation" },
    { keys := ["?", "shift"], action := "helpWithShortcuts", type := .combination,
      description := "Show keyboard shortcuts", scope := "navigation" } ]

/-- The `globalShortcuts` group. -/
def globalShortcuts : List Shortcut :=
  [ { keys := ["mod", "z"], action := "undoLastAction", type := .single,
      description := "Undo last action", scope := "global",
      preventDefault := some true },
    { keys := ["v"], action := "openVoice", type := .single,
      description := "Open voice", scope := "global" },
    { keys := ["c"], action := "newEmail", type := .single,
      description := "Compose new email", scope := "global",
      preventDefault := some true },
    { keys := ["mod", "k"], action := "commandPalette", type := .combination,
      description := "Open command palette", scope := "global" },
    { keys := ["mod", "shift", "f"], action := "clearAllFilters", type := .combination,
      description := "Clear all filters", scope := "global",
      preventDefault := some true } ]

/-- The `mailListShortcuts` group (active entries only). -/
def mailListShortcuts : List Shortcut :=
  [ { keys := ["r"], action := "markAsRead", type := .single,
      description := "Mark as read", scope := "mail-list" },
    { keys := ["u"], action := "markAsUnread", type := .single,
      description := "Mark as unread", scope := "mail-list" },
    { keys := ["i"], action := "markAsImportant", type := .single,
      description := "Mark as important", scope := "mail-list" },
    { keys := ["a"], action := "bulkArchive", type := .single,
      description := "Bulk archive", scope := "mail-list" },
    { keys := ["d"], action := "bulkDelete", type := .single,
      description := "Bulk delete", scope := "mail-list" },
    { keys := ["s"], action := "bulkStar", type := .single,
      description := "Bulk star", scope := "mail-list" },
    { keys := ["e"], action := "archiveEmail", type := .single,
      description := "Archive email", scope := "mail-list" },
    { keys := ["escape"], action := "exitSelectionMode", type := .single,
      description := "Exit selection mode", scope := "mail-list" },
    { keys := ["mod", "a"], action := "selectAll", type := .combination,
      description := "Select all emails", scope := "mail-list",
      preventDefault := some true },
    { keys := ["1"], action := "showImportant", type := .single,
      description := "Show important", scope := "mail-list" },
    { keys := ["2"], action := "showAllMail", type := .single,
      description := "Show all mail", scope := "mail-list" },
    { keys := ["3"], action := "showPersonal", type := .single,
      description := "Show personal", scope := "mail-list" },
    { keys := ["4"], action := "showUpdates", type := .single,
      description := "Show updates", scope := "mail-list" },
    { keys := ["5"], action := "showPromotions", type := .single,
      description := "Show promotions", scope := "mail-list" },
    { keys := ["6"], action := "showUnread", type := .single,
      description := "Show unread", scope := "mail-list" },
    { keys := ["alt", "shift", "click"], action := "selectUnderCursor", type := .combination,
      description := "Select under cursor", scope := "mail-list",
      ignore := some true } ]

/-- The `composeShortcuts` group. -/
def composeShortcuts : List Shortcut :=
  [ { keys := ["mod", "Enter"], action := "sendEmail", type := .combination,
      description := "Send email", scope := "compose" },
    { keys := ["escape"], action := "closeCompose", type := .single,
      description := "Close compose", scope := "compose" } ]

/-- `keyboardShortcuts`: the flattened registry, the concatenation of the
five per-scope groups with spread syntax. -/
def keyboardShortcuts : List Shortcut :=
  navigation ++ threadDisplayShortcuts ++ globalShortcuts ++
    mailListShortcuts ++ composeShortcuts

/-- The fixed modifier/named-key override table as the specification
states it, keyed on the lower-cased key name: `none` means the key is not
in the fixed set. Used to state the claims; compare with the `switch`
cases inside `displayKeyFor`. -/
def specFixedOverride (platform : String) (lowerKey : String) : Option String :=
  match lowerKey with
  | "mod" => some (if strIncludes platform "Mac" then "⌘" else "Ctrl")
  | "meta" => some "⌘"
  | "ctrl" => some "Ctrl"
  | "control" => some "Ctrl"
  | "alt" => some (if strIncludes platform "Mac" then "⌥" else "Alt")
  | "shift" => some "⇧"
  | "escape" => some "Esc"
  | "backspace" => some "⌫"
  | "enter" => some "↵"
  | "space" => some "Space"
  | _ => none

/-- A concrete Mac environment with no detected layout, for witnesses. -/
def macEnv : Env :=
  { platform := "MacIntel"
    detectedLayout := none
    getKeyCodeFromKey := fun k => k
    getKeyForCode := fun c => c
    mapKeys := fun codes => codes }

/-- A concrete non-Mac environment whose detected layout is `"azerty"` and
whose lookup services remap every key to the physical key `"q"`. -/
def azertyEnv : Env :=
  { platform := "Linux x86_64"
    detectedLayout := some { layout := "azerty" }
    getKeyCodeFromKey := fun _ => "KeyQ"
    getKeyForCode := fun _ => "q"
    mapKeys := fun codes => codes }

/-- A concrete environment whose detected layout identifier is the empty
string (present, and different from `"qwerty"`), with remapping services. -/
def emptyLayoutEnv : Env :=
  { platform := "Linux x86_64"
    detectedLayout := some { layout := "" }
    getKeyCodeFromKey := fun _ => "KeyZ"
    getKeyForCode := fun _ => "z"
    mapKeys := fun codes => codes }

/-- A concrete non-Mac environment with the default `"qwerty"` layout. -/
def qwertyEnv : Env :=
  { platform := "Win32"
    detectedLayout := some { layout := "qwerty" }
    getKeyCodeFromKey := fun _ => "KeyQ"
    getKeyForCode := fun _ => "q"
    mapKeys := fun codes => codes }

/-- A sample one-key shortcut record used by concrete witnesses. -/
def sampleShortcut (keys : List String) : Shortcut :=
  { keys := keys
    action := "sample"
    type := .single
    description := "sample"
    scope := "global" }

/-- A key whose lower-cased form is in the fixed table resolves to the
fixed label, for any layout. -/
theorem displayKeyFor_eq_fixed (env : Env) (dl : Option DetectedLayout)
    (key lbl : String)
    (hk : specFixedOverride env.platform (jsToLower key) = some lbl) :
    displayKeyFor env dl key = lbl := by
  unfold specFixedOverride at hk
  unfold displayKeyFor
  split at hk <;> simp_all

/-- A key whose lower-cased form is not in the fixed table resolves through
the layout-aware or default fallback. -/
theorem displayKeyFor_not_fixed (env : Env) (dl : Option DetectedLayout)
    (key : String)
    (hk : specFixedOverride env.platform (jsToLower key) = none) :
    displayKeyFor env dl key =
      if layoutNonDefault dl then
        if (env.getKeyForCode (env.getKeyCodeFromKey key)).length = 1 then
          jsToUpper (env.getKeyForCode (env.getKeyCodeFromKey key))
        else
          env.getKeyForCode (env.getKeyCodeFromKey key)
      else
        if key.length = 1 then jsToUpper key else key := by
  unfold specFixedOverride at hk
  unfold displayKeyFor
  split at hk <;> simp_all

/-- `getDisplayKeysForShortcut` returns one label per key. -/
theorem displayKeys_length_eq (env : Env) (s : Shortcut) :
    (getDisplayKeysForShortcut env s).length = s.keys.length := by
  simp [getDisplayKeysForShortcut]

/-- The label at position `i` is the per-key resolution of the key at
position `i`. -/
theorem displayKeys_get_eq (env : Env) (s : Shortcut) (i : Nat)
    (h : i < s.keys.length) :
    (getDisplayKeysForShortcut env s).get
      ⟨i, by rw [displayKeys_length_eq]; exact h⟩ =
      displayKeyFor env env.detectedLayout (s.keys.get ⟨i, h⟩) := by
  simp [getDisplayKeysForShortcut]

/-- `enhanceShortcutsWithMapping` returns one record per input record. -/
theorem enhance_length_eq (env : Env) (shortcuts : List Shortcut) :
    (enhanceShortcutsWithMapping env shortcuts).length = shortcuts.length := by
  simp [enhanceShortcutsWithMapping]

/-- C1: for every shortcut and every position whose key lower-cases into
the fixed set, `getDisplayKeysForShortcut` returns the fixed-override
label of `specFixedOverride` (the table stated by the claim) at that
position, for every environment — hence regardless of the detected
layout and of the lookup services. -/
theorem getDisplayKeys_fixed_override (env : Env) (s : Shortcut) (i : Nat)
    (h : i < s.keys.length) (lbl : String)
    (hk : specFixedOverride env.platform (jsToLower (s.keys.get ⟨i, h⟩)) = some lbl) :
    (getDisplayKeysForShortcut env s).get
      ⟨i, by rw [displayKeys_length_eq]; exact h⟩ = lbl := by
  rw [displayKeys_get_eq]
  exact displayKeyFor_eq_fixed env env.detectedLayout _ lbl hk

/-- Witness for C1: `"mod"` on a Mac platform renders as `⌘`. -/
theorem getDisplayKeys_fixed_override_witness :
    (getDisplayKeysForShortcut macEnv (sampleShortcut ["mod"])).get
      ⟨0, by decide⟩ = "⌘" :=
  getDisplayKeys_fixed_override macEnv (sampleShortcut ["mod"]) 0 (by decide)
    "⌘" (by decide)

/-- C2 as stated is false: in the non-default-layout branch a non-fixed
key renders from the layout-mapped label, not from the key name. Under
`azertyEnv` the single-character key `"a"` is outside the fixed set, yet
its label is `"Q"` (the upper-cased mapped key), not `"A"` (the
upper-cased key name the claim requires). -/
theorem pass_through_counterexample :
    specFixedOverride azertyEnv.platform (jsToLower "a") = none ∧
    ("a" : String).length = 1 ∧
    getDisplayKeysForShortcut azertyEnv (sampleShortcut ["a"]) = ["Q"] ∧
    getDisplayKeysForShortcut azertyEnv (sampleShortcut ["a"]) ≠
      [jsToUpper "a"] :=
  ⟨by decide, by decide, by decide, by decide⟩

/-- C2 amended: for a key outside the fixed set, the upper-case-if-single
/ pass-through-if-longer rule applies to the key name itself in the
default-layout branch, and to the layout-mapped label (not the key name)
in the non-default-layout branch. -/
theorem pass_through_amended (env : Env) (s : Shortcut) (i : Nat)
    (h : i < s.keys.length)
    (hk : specFixedOverride env.platform (jsToLower (s.keys.get ⟨i, h⟩)) = none) :
    (getDisplayKeysForShortcut env s).get
      ⟨i, by rw [displayKeys_length_eq]; exact h⟩ =
      if layoutNonDefault env.detectedLayout then
        if (env.getKeyForCode (env.getKeyCodeFromKey (s.keys.get ⟨i, h⟩))).length = 1 then
          jsToUpper (env.getKeyForCode (env.getKeyCodeFromKey (s.keys.get ⟨i, h⟩)))
        else
          env.getKeyForCode (env.getKeyCodeFromKey (s.keys.get ⟨i, h⟩))
      else
        if (s.keys.get ⟨i, h⟩).length = 1 then jsToUpper (s.keys.get ⟨i, h⟩)
        else s.keys.get ⟨i, h⟩ := by
  rw [displayKeys_get_eq]
  exact displayKeyFor_not_fixed env env.detectedLayout _ hk

/-- Witness for C2 (amended): `"click"` under the default layout passes
through unchanged. -/
theorem pass_through_amended_witness :
    (getDisplayKeysForShortcut qwertyEnv (sampleShortcut ["click"])).get
      ⟨0, by decide⟩ = "click" :=
  (pass_through_amended qwertyEnv (sampleShortcut ["click"]) 0 (by decide)
    (by decide)).trans (by decide)

/-- C3 as stated is false: the guard is the JavaScript truthiness test
`detectedLayout?.layout && detectedLayout.layout !== 'qwerty'`, so a
detected layout whose identifier is the empty string — present and
different from `"qwerty"` — still takes the default branch. Under
`emptyLayoutEnv` the key `"a"` renders as `"A"` (upper-cased key name)
although the claim requires the code-lookup route, which would give
`"Z"`. -/
theorem layout_branch_counterexample :
    emptyLayoutEnv.detectedLayout = some { layout := "" } ∧
    ("" : String) ≠ "qwerty" ∧
    specFixedOverride emptyLayoutEnv.platform (jsToLower "a") = none ∧
    getDisplayKeysForShortcut emptyLayoutEnv (sampleShortcut ["a"]) = ["A"] ∧
    getDisplayKeysForShortcut emptyLayoutEnv (sampleShortcut ["a"]) ≠
      [if (emptyLayoutEnv.getKeyForCode (emptyLayoutEnv.getKeyCodeFromKey "a")).length = 1
       then jsToUpper (emptyLayoutEnv.getKeyForCode (emptyLayoutEnv.getKeyCodeFromKey "a"))
       else emptyLayoutEnv.getKeyForCode (emptyLayoutEnv.getKeyCodeFromKey "a")] :=
  ⟨rfl, by decide, by decide, by decide, by decide⟩

/-- C3 amended: when the detected layout is present with a non-empty
identifier different from `"qwerty"`, a non-fixed key resolves through
`getKeyCodeFromKey` and `getKeyForCode`, upper-cased when the mapped
label is a single character and verbatim otherwise. -/
theorem layout_branch_amended (env : Env) (s : Shortcut) (i : Nat)
    (h : i < s.keys.length) (d : DetectedLayout)
    (hdl : env.detectedLayout = some d) (hne : d.layout ≠ "")
    (hq : d.layout ≠ "qwerty")
    (hk : specFixedOverride env.platform (jsToLower (s.keys.get ⟨i, h⟩)) = none) :
    (getDisplayKeysForShortcut env s).get
      ⟨i, by rw [displayKeys_length_eq]; exact h⟩ =
      if (env.getKeyForCode (env.getKeyCodeFromKey (s.keys.get ⟨i, h⟩))).length = 1 then
        jsToUpper (env.getKeyForCode (env.getKeyCodeFromKey (s.keys.get ⟨i, h⟩)))
      else
        env.getKeyForCode (env.getKeyCodeFromKey (s.keys.get ⟨i, h⟩)) := by
  rw [displayKeys_get_eq, displayKeyFor_not_fixed env env.detectedLayout _ hk]
  have hguard : layoutNonDefault env.detectedLayout = true := by
    rw [hdl]
    simp [layoutNonDefault, hne, hq]
  rw [hguard]
  simp

/-- Witness for C3 (amended): `"a"` under the azerty environment renders
as the upper-cased mapped key `"Q"`. -/
theorem layout_branch_amended_witness :
    (getDisplayKeysForShortcut azertyEnv (sampleShortcut ["a"])).get
      ⟨0, by decide⟩ = "Q" :=
  (layout_branch_amended azertyEnv (sampleShortcut ["a"]) 0 (by decide)
    { layout := "azerty" } rfl (by decide) (by decide) (by decide)).trans
    (by decide)

/-- C4: when the detected layout is absent or is `"qwerty"`, a non-fixed
key resolves to itself, upper-cased when it is a single character. The
right-hand side never mentions `env.getKeyCodeFromKey`,
`env.getKeyForCode` or `env.mapKeys`, and the environment is quantified
over all service implementations, so neither lookup service can influence
the label. -/
theorem default_branch_pass_through (env : Env) (s : Shortcut) (i : Nat)
    (h : i < s.keys.length)
    (hdl : env.detectedLayout = none ∨
      env.detectedLayout = some { layout := "qwerty" })
    (hk : specFixedOverride env.platform (jsToLower (s.keys.get ⟨i, h⟩)) = none) :
    (getDisplayKeysForShortcut env s).get
      ⟨i, by rw [displayKeys_length_eq]; exact h⟩ =
      if (s.keys.get ⟨i, h⟩).length = 1 then jsToUpper (s.keys.get ⟨i, h⟩)
      else s.keys.get ⟨i, h⟩ := by
  rw [displayKeys_get_eq, displayKeyFor_not_fixed env env.detectedLayout _ hk]
  have hguard : layoutNonDefault env.detectedLayout = false := by
    rcases hdl with hdl | hdl <;> rw [hdl] <;> simp [layoutNonDefault]
  rw [hguard]
  simp

/-- Witness for C4: `"a"` with no detected layout renders as `"A"` even
though `macEnv`'s services are the identity (which would also give `"a"`
otherwise). -/
theorem default_branch_pass_through_witness :
    (getDisplayKeysForShortcut macEnv (sampleShortcut ["a"])).get
      ⟨0, by decide⟩ = "A" :=
  (default_branch_pass_through macEnv (sampleShortcut ["a"]) 0 (by decide)
    (Or.inl rfl) (by decide)).trans (by decide)

/-- C5: `enhanceShortcutsWithMapping` returns exactly one record per input
record, in order; the record at position `i` carries `displayKeys` equal
to `getDisplayKeysForShortcut` of the input record at position `i`, and
`mappedKeys` equal to `mapKeys` of that record's keys converted through
`getKeyCodeFromKey`. -/
theorem enhance_length_and_fields (env : Env) (shortcuts : List Shortcut) :
    (enhanceShortcutsWithMapping env shortcuts).length = shortcuts.length ∧
    ∀ i : Nat, ∀ h : i < shortcuts.length,
      ((enhanceShortcutsWithMapping env shortcuts).get
        ⟨i, by rw [enhance_length_eq]; exact h⟩).displayKeys =
          some (getDisplayKeysForShortcut env (shortcuts.get ⟨i, h⟩)) ∧
      ((enhanceShortcutsWithMapping env shortcuts).get
        ⟨i, by rw [enhance_length_eq]; exact h⟩).mappedKeys =
          some (env.mapKeys ((shortcuts.get ⟨i, h⟩).keys.map env.getKeyCodeFromKey)) := by
  refine ⟨enhance_length_eq env shortcuts, fun i h => ⟨?_, ?_⟩⟩ <;>
    simp [enhanceShortcutsWithMapping]

/-- Witness for C5: a singleton batch under `macEnv` yields
`displayKeys = ["A"]`. -/
theorem enhance_length_and_fields_witness :
    ((enhanceShortcutsWithMapping macEnv [sampleShortcut ["a"]]).get
      ⟨0, by decide⟩).displayKeys = some ["A"] :=
  (((enhance_length_and_fields macEnv [sampleShortcut ["a"]]).2 0
    (by decide)).1).trans (by decide)

/-- C6: for every environment and shortcut, the display sequence has
exactly the length of `keys`, and the label at every position is the
per-key resolution `displayKeyFor` of the key at the same position. -/
theorem displayKeys_positional (env : Env) (s : Shortcut) :
    (getDisplayKeysForShortcut env s).length = s.keys.length ∧
    ∀ i : Nat, ∀ h : i < s.keys.length,
      (getDisplayKeysForShortcut env s).get
        ⟨i, by rw [displayKeys_length_eq]; exact h⟩ =
        displayKeyFor env env.detectedLayout (s.keys.get ⟨i, h⟩) :=
  ⟨displayKeys_length_eq env s, fun i h => displayKeys_get_eq env s i h⟩

/-- Witness for C6: a two-key shortcut yields two labels, each resolved
from the key at its own position. -/
theorem displayKeys_positional_witness :
    (getDisplayKeysForShortcut qwertyEnv (sampleShortcut ["mod", "z"])).get
      ⟨1, by decide⟩ = "Z" :=
  ((displayKeys_positional qwertyEnv (sampleShortcut ["mod", "z"])).2 1
    (by decide)).trans (by decide)

/-- C7: the flattened registry is exactly the concatenation of the five
per-scope groups in the order navigation, thread-display, global,
mail-list, compose (so each group is contiguous and internally ordered),
and its length, 34, is the sum of the group lengths 7, 4, 5, 16, 2. -/
theorem keyboardShortcuts_concatenation :
    keyboardShortcuts =
      navigation ++ threadDisplayShortcuts ++ globalShortcuts ++
        mailListShortcuts ++ composeShortcuts ∧
    keyboardShortcuts.length =
      navigation.length + threadDisplayShortcuts.length +
        globalShortcuts.length + mailListShortcuts.length +
        composeShortcuts.length ∧
    navigation.length = 7 ∧
    threadDisplayShortcuts.length = 4 ∧
    globalShortcuts.length = 5 ∧
    mailListShortcuts.length = 16 ∧
    composeShortcuts.length = 2 ∧
    keyboardShortcuts.length = 34 :=
  ⟨rfl, by decide, by decide, by decide, by decide, by decide, by decide,
    by decide⟩

/-- C8: every enhanced record preserves the whole underlying record (its
`toShortcut` projection — keys, action, type, description, scope,
preventDefault, ignore — equals the input record), and both added fields
are defined (`some`) even though the type declares them optional. -/
theorem enhance_preserves_record (env : Env) (shortcuts : List Shortcut)
    (i : Nat) (h : i < shortcuts.length) :
    ((enhanceShortcutsWithMapping env shortcuts).get
      ⟨i, by rw [enhance_length_eq]; exact h⟩).toShortcut =
        shortcuts.get ⟨i, h⟩ ∧
    ((enhanceShortcutsWithMapping env shortcuts).get
      ⟨i, by rw [enhance_length_eq]; exact h⟩).displayKeys.isSome = true ∧
    ((enhanceShortcutsWithMapping env shortcuts).get
      ⟨i, by rw [enhance_length_eq]; exact h⟩).mappedKeys.isSome = true := by
  refine ⟨?_, ?_, ?_⟩ <;> simp [enhanceShortcutsWithMapping]

/-- Witness for C8: the enhanced record of a singleton batch keeps its
underlying record unchanged. -/
theorem enhance_preserves_record_witness :
    ((enhanceShortcutsWithMapping azertyEnv [sampleShortcut ["z"]]).get
      ⟨0, by decide⟩).toShortcut = sampleShortcut ["z"] :=
  ((enhance_preserves_record azertyEnv [sampleShortcut ["z"]] 0
    (by decide)).1).trans (by decide)

/-- C9: totality. For every environment, shortcut, batch, layout and key,
the resolver produces one label per key and the enhancer one record per
record, and every label is either the fixed-override label or the
upper-cased/verbatim degradation of the key name or of the service-mapped
label — no input is rejected. -/
theorem resolver_total (env : Env) (dl : Option DetectedLayout)
    (key : String) (s : Shortcut) (shortcuts : List Shortcut) :
    (getDisplayKeysForShortcut env s).length = s.keys.length ∧
    (enhanceShortcutsWithMapping env shortcuts).length = shortcuts.length ∧
    displayKeyFor env dl key ∈
      (specFixedOverride env.platform (jsToLower key)).toList ++
        [if key.length = 1 then jsToUpper key else key,
         if (env.getKeyForCode (env.getKeyCodeFromKey key)).length = 1 then
           jsToUpper (env.getKeyForCode (env.getKeyCodeFromKey key))
         else env.getKeyForCode (env.getKeyCodeFromKey key)] := by
  refine ⟨displayKeys_length_eq env s, enhance_length_eq env shortcuts, ?_⟩
  cases hk : specFixedOverride env.platform (jsToLower key) with
  | some lbl =>
    rw [displayKeyFor_eq_fixed env dl key lbl hk]
    simp
  | none =>
    rw [displayKeyFor_not_fixed env dl key hk]
    by_cases hl : layoutNonDefault dl <;> simp [hl]

/-- C10: every record of the flattened registry has a non-empty `keys`
sequence. -/
theorem registry_keys_nonempty : ∀ s ∈ keyboardShortcuts, s.keys ≠ [] := by
  decide

/-- Witness for C10: the first navigation record is in the registry and
its keys are non-empty. -/
theorem registry_keys_nonempty_witness :
    ({ keys := ["g", "d"], action := "goToDrafts", type := .combination,
       description := "Go to drafts", scope := "navigation" } : Shortcut).keys
      ≠ [] :=
  registry_keys_nonempty _ (by decide)

end Shortcuts
